import Mathlib

/-
Verification development for the bls-monitor repository.

Shallow embedding of the core logic of:
  src/captcha.py   (CaptchaSolver: _detect, _detect_in_frame, _detect_from_html,
                    _solve_remote, solve_bls_grid, check_balance)
  src/auth.py      (Authenticator.login: honeypot credential entry, captcha
                    popup frame polling)
  src/form_filler.py (FormFiller._check_availability)
  src/main.py      (Monitor.run error-counter policy, _check_captcha_balance)
  src/slot_checker.py (SlotChecker._rotate_screenshots)

Machine strings are Lean Strings; DOM queries are modelled over explicit
element lists; the remote solving service is an oracle function supplied as a
parameter; regular-expression searches from the source are modelled as
deterministic scans with the same leftmost-match, greedy semantics (justified
in the doc comment of each scan).
-/

namespace BLS

/-! ## String primitives

Structural (kernel-reducible) counterparts of the Python / JavaScript string
operations used by the source: substring containment (Python `in`,
JS `includes`), lowercasing (`str.lower`), trimming (`str.strip`), and
whitespace splitting (CSS class-token matching). -/

/-- Substring test on character lists: Python `pat in s` / JS `s.includes(pat)`. -/
def containsSub (pat : List Char) : List Char → Bool
  | [] => pat.isEmpty
  | c :: cs => pat.isPrefixOf (c :: cs) || containsSub pat cs

/-- Python `pat in s` on Lean strings. -/
def strContains (s pat : String) : Bool :=
  containsSub pat.data s.data

/-- Python `s.lower()` (ASCII-relevant part). -/
def strLower (s : String) : String :=
  String.mk (s.data.map Char.toLower)

/-- Python `s.strip()`: drop whitespace from both ends. -/
def strTrim (s : String) : String :=
  String.mk (((s.data.dropWhile Char.isWhitespace).reverse.dropWhile
    Char.isWhitespace).reverse)

/-- Split a character list at a separator character; used for CSS class-token
matching (`class` attribute split at spaces). -/
def splitAtChar (sep : Char) : List Char → List (List Char)
  | [] => [[]]
  | c :: cs =>
    let r := splitAtChar sep cs
    if c == sep then [] :: r
    else
      match r with
      | [] => [[c]]
      | h :: t => (c :: h) :: t

/-! ## Captcha detection model (src/captcha.py, `_detect` / `_detect_in_frame`
/ `_detect_from_html`)

A DOM element is modelled by its `class` attribute string and its optional
`data-sitekey` attribute.  A CSS selector `.x[data-sitekey]` matches an
element whose class attribute, split at spaces, contains the token `x` and
whose `data-sitekey` attribute is present; `[data-sitekey]` alone only
requires the attribute.  `query_selector` returns the first match in document
order, modelled by `List.find?` over the frame's element list. -/

structure DomElement where
  cls : String
  sitekey : Option String
deriving DecidableEq

/-- CSS class selector `.c` matches: the class attribute, split at spaces,
contains the token `c`. -/
def hasClassToken (e : DomElement) (c : String) : Bool :=
  (splitAtChar ' ' e.cls.data).contains c.data

/-- `frame.query_selector(".c[data-sitekey]")`. -/
def classQuery (els : List DomElement) (c : String) : Option DomElement :=
  els.find? (fun e => hasClassToken e c && e.sitekey.isSome)

/-- `frame.query_selector("[data-sitekey]")`. -/
def anySitekeyQuery (els : List DomElement) : Option DomElement :=
  els.find? (fun e => e.sitekey.isSome)

/-- Whether a frame holds any element carrying a `data-sitekey` attribute. -/
def frameHasMarker (els : List DomElement) : Bool :=
  els.any (fun e => e.sitekey.isSome)

/-- `CaptchaSolver._detect_in_frame` (src/captcha.py lines 73-101): try the
three family class signatures in order (hCaptcha, Turnstile, reCAPTCHA), then
the generic `[data-sitekey]` lookup whose family is inferred from the raw
class string by Python substring tests, defaulting to hCaptcha. -/
def detectInFrame (els : List DomElement) : Option String × Option String :=
  match classQuery els "h-captcha" with
  | some e => (some "hcaptcha", e.sitekey)
  | none =>
  match classQuery els "cf-turnstile" with
  | some e => (some "turnstile", e.sitekey)
  | none =>
  match classQuery els "g-recaptcha" with
  | some e => (some "recaptcha", e.sitekey)
  | none =>
  match anySitekeyQuery els with
  | some e =>
    if strContains e.cls "h-captcha" then (some "hcaptcha", e.sitekey)
    else if strContains e.cls "cf-turnstile" then (some "turnstile", e.sitekey)
    else (some "hcaptcha", e.sitekey)
  | none => (none, none)

/-- Character class `[a-f0-9-]` of the sitekey regex. -/
def isSitekeyChar (c : Char) : Bool :=
  c == '-' || (('a' ≤ c) && (c ≤ 'f')) || (('0' ≤ c) && (c ≤ '9'))

/-- Character class `["\']` of the sitekey regex. -/
def isQuoteChar (c : Char) : Bool :=
  c == '"' || c == '\''

/-- Match the regex `data-sitekey=["\']([a-f0-9-]{30,})["\']` anchored at the
head of `cs`.  The group `[a-f0-9-]{30,}` is greedy; since a quote is not a
key character, backtracking the group can never expose a closing quote, so
the regex matches here exactly when the maximal key-character run after the
opening quote has length at least 30 and is followed by a quote. -/
def matchSitekeyAt (cs : List Char) : Option String :=
  let pat := "data-sitekey=".data
  if pat.isPrefixOf cs then
    match cs.drop pat.length with
    | [] => none
    | q :: rest =>
      if isQuoteChar q then
        let run := rest.takeWhile isSitekeyChar
        if 30 ≤ run.length then
          match rest.drop run.length with
          | [] => none
          | c2 :: _ => if isQuoteChar c2 then some (String.mk run) else none
        else none
      else none
  else none

/-- `re.search` of the sitekey regex: leftmost match wins, scanning start
positions left to right. -/
def searchSitekey : List Char → Option String
  | [] => none
  | c :: cs =>
    match matchSitekeyAt (c :: cs) with
    | some k => some k
    | none => searchSitekey cs

/-- `CaptchaSolver._detect_from_html` (src/captcha.py lines 103-115): regex
fallback over the raw page HTML, family inferred by substring tests. -/
def detectFromHtml (html : String) : Option String × Option String :=
  match searchSitekey html.data with
  | none => (none, none)
  | some key =>
    if strContains html "h-captcha" then (some "hcaptcha", some key)
    else if strContains html "cf-turnstile" then (some "turnstile", some key)
    else if strContains html "g-recaptcha" then (some "recaptcha", some key)
    else (some "hcaptcha", some key)

/-- A page as seen by `_detect`: the main document's elements, the element
lists of the child frames (in `page.frames` order, main frame excluded as the
source skips it), and the raw page HTML returned by `page.content()`. -/
structure PageModel where
  mainFrame : List DomElement
  childFrames : List (List DomElement)
  html : String

/-- The child-frame loop of `_detect`: first frame whose detection result has
a truthy first component. -/
def scanChildFrames (p : PageModel) : Option (Option String × Option String) :=
  (p.childFrames.map detectInFrame).find? (fun r => r.1.isSome)

/-- `CaptchaSolver._detect` (src/captcha.py lines 55-71): main document, then
every child frame, then the raw-HTML regex fallback. -/
def detect (p : PageModel) : Option String × Option String :=
  let r := detectInFrame p.mainFrame
  if r.1.isSome then r
  else
    match scanChildFrames p with
    | some r2 => r2
    | none => detectFromHtml p.html

/-! ## Availability classification (src/form_filler.py, `_check_availability`) -/

/-- Negative-signal phrases, src/form_filler.py lines 209-215. -/
def noSlotSignals : List String :=
  ["no appointments available", "no slots available", "currently, no slots",
   "no available dates", "currently unavailable"]

/-- Positive-signal phrases, src/form_filler.py lines 222-229. -/
def slotSignals : List String :=
  ["select date", "select time", "available dates", "book appointment",
   "appointment date", "calendar"]

/-- `FormFiller._check_availability` (src/form_filler.py lines 204-237):
lowercase the body text, return `false` on the first negative phrase found,
then `true` on a positive phrase, and `true` in the ambiguous case. -/
def checkAvailability (bodyText : String) : Bool :=
  let t := strLower bodyText
  if noSlotSignals.any (fun sg => strContains t sg) then false
  else if slotSignals.any (fun sg => strContains t sg) then true
  else true

/-! ## BLS grid captcha (src/captcha.py, `solve_bls_grid`)

The page of the grid captcha carries instruction labels (`.box-label`
elements, several of them honeypots) and cell images (`.captcha-img`
elements, many hidden honeypots).  The 2captcha image-recognition call is an
oracle `recog` from the submitted base64 payload to the recognized string
(`none` models the call raising, which the source catches and skips). -/

structure GridLabel where
  display : String
  visibility : String
  offsetParentNull : Bool
  text : String
deriving DecidableEq

/-- The JS visibility check on an instruction label (src/captcha.py lines
176-178): computed `display` not `none`, `visibility` not `hidden`, and a
non-null `offsetParent`. -/
def labelVisible (l : GridLabel) : Bool :=
  l.display != "none" && l.visibility != "hidden" && !l.offsetParentNull

/-- Whether a character belongs to the JS `\s` class (whitespace). -/
def isWsChar (c : Char) : Bool := Char.isWhitespace c

/-- Match the JS regex `number\s+(\d+)` anchored at the head of `cs`.  Both
quantified classes are greedy and disjoint (a digit is not whitespace), so
the match here is: the literal `number`, the maximal nonempty whitespace run,
then the maximal nonempty digit run, which is the captured group. -/
def matchNumberAt (cs : List Char) : Option String :=
  let pat := "number".data
  if pat.isPrefixOf cs then
    let rest := cs.drop pat.length
    let ws := rest.takeWhile isWsChar
    if ws.isEmpty then none
    else
      let digits := (rest.drop ws.length).takeWhile Char.isDigit
      if digits.isEmpty then none else some (String.mk digits)
  else none

/-- `text.match(/number\s+(\d+)/)`: leftmost match of the pattern, returning
the captured digit group. -/
def searchNumber : List Char → Option String
  | [] => none
  | c :: cs =>
    match matchNumberAt (c :: cs) with
    | some n => some n
    | none => searchNumber cs

/-- Extract the target digits out of a label's text content. -/
def extractNumberFromText (t : String) : Option String :=
  searchNumber t.data

/-- Target-number extraction of `solve_bls_grid` (src/captcha.py lines
172-189): first the visible labels are scanned and the first visible label
with a `number NNN` match supplies the target; if that yields nothing, a
fallback scans all labels (hidden ones included); otherwise null. -/
def extractTarget (labels : List GridLabel) : Option String :=
  match labels.findSome?
      (fun l => if labelVisible l then extractNumberFromText l.text else none) with
  | some n => some n
  | none => labels.findSome? (fun l => extractNumberFromText l.text)

structure GridImg where
  width : Nat
  height : Nat
  parentDisplay : String
  parentVisibility : String
  id : Option String
  src : String
deriving DecidableEq

/-- The JS visibility check on a cell image (src/captcha.py lines 203-206):
nonzero bounding box and the parent's computed style neither `display:none`
nor `visibility:hidden`. -/
def imgVisible (g : GridImg) : Bool :=
  g.width != 0 && g.height != 0 &&
  g.parentDisplay != "none" && g.parentVisibility != "hidden"

/-- The candidate cell records collected by the page script (src/captcha.py
lines 198-216): only visible images, each reduced to the id of its closest
ancestor carrying an id, and its `src` attribute. -/
def visibleCells (imgs : List GridImg) : List (Option String × String) :=
  (imgs.filter imgVisible).map (fun g => (g.id, g.src))

/-- Drop characters up to and including the first comma: Python
`src.split(",", 1)[1]`. -/
def dropThroughComma : List Char → List Char
  | [] => []
  | c :: cs => if c == ',' then cs else dropThroughComma cs

/-- Base64 payload extracted from a `data:` URL (src/captcha.py lines
234-238): the part after the first comma when a comma is present, the whole
string otherwise. -/
def extractB64 (src : String) : String :=
  if strContains src "," then String.mk (dropThroughComma src.data)
  else src

/-- The recognized value of one candidate cell (src/captcha.py lines
228-255): skipped (no value) when the id is missing or empty, when the src is
empty or not a `data:` URL, or when the recognition call raises; otherwise
the recognition result string, stripped. -/
def recognizedOf (recog : String → Option String)
    (cell : Option String × String) : Option String :=
  match cell.1 with
  | none => none
  | some id =>
    if id == "" then none
    else if "data:".data.isPrefixOf cell.2.data then
      (recog (extractB64 cell.2)).map strTrim
    else none

/-- Ids of the cells whose recognized value equals the target, in scan order
(src/captcha.py lines 251-252). -/
def matchingIds (recog : String → Option String) (target : String)
    (cells : List (Option String × String)) : List String :=
  cells.filterMap
    (fun c => if recognizedOf recog c == some target then c.1 else none)

/-- Observable outcome of one `solve_bls_grid` run: the returned boolean, the
cell ids clicked, and whether the selection was submitted. -/
structure GridOutcome where
  success : Bool
  clicked : List String
  submitted : Bool
deriving DecidableEq

/-- `CaptchaSolver.solve_bls_grid` (src/captcha.py lines 163-275): extract
the target, collect the visible cells, recognize them, and click exactly the
matching cells before submitting; any empty stage reports failure with no
click and no submission. -/
def solveBlsGrid (labels : List GridLabel) (imgs : List GridImg)
    (recog : String → Option String) : GridOutcome :=
  match extractTarget labels with
  | none => ⟨false, [], false⟩
  | some target =>
    let cells := visibleCells imgs
    if cells.isEmpty then ⟨false, [], false⟩
    else
      let ids := matchingIds recog target cells
      if ids.isEmpty then ⟨false, [], false⟩
      else ⟨true, ids, true⟩

/-! ## Remote widget solving (src/captcha.py, `_solve_remote`) -/

def MAX_SOLVE_RETRIES : Nat := 3

/-- Seconds slept between consecutive attempts (src/captcha.py line 12). -/
def SOLVE_RETRY_DELAY : Nat := 5

inductive SolveOutcome where
  | token (tok : String)
  | valueError
  | solveFailed
deriving DecidableEq

/-- Observable trace of `_solve_remote`: final outcome, number of calls made
to the solving service, and number of `SOLVE_RETRY_DELAY`-second sleeps. -/
structure SolveTrace where
  result : SolveOutcome
  calls : Nat
  sleeps : Nat
deriving DecidableEq

/-- The three widget families `_solve_remote` dispatches on. -/
def knownCaptchaType (t : String) : Bool :=
  t == "hcaptcha" || t == "turnstile" || t == "recaptcha"

/-- The retry loop of `_solve_remote` (src/captcha.py lines 125-157): the
service outcome of attempt `i` is `svc i`; a failed attempt sleeps only when
it is not the last one; exhausting the loop raises (`solveFailed`). -/
def solveLoop (svc : Nat → Option String) : Nat → Nat → SolveTrace
  | _, 0 => ⟨.solveFailed, 0, 0⟩
  | attempt, n + 1 =>
    match svc attempt with
    | some tok => ⟨.token tok, 1, 0⟩
    | none =>
      if n == 0 then ⟨.solveFailed, 1, 0⟩
      else
        let rest := solveLoop svc (attempt + 1) n
        ⟨rest.result, rest.calls + 1, rest.sleeps + 1⟩

/-- `CaptchaSolver._solve_remote` (src/captcha.py lines 121-157).  An unknown
captcha type raises `ValueError` on the first pass, before any service call
or sleep, and the `except ValueError: raise` arm propagates it immediately. -/
def solveRemote (ctype : String) (svc : Nat → Option String) : SolveTrace :=
  if knownCaptchaType ctype then solveLoop svc 1 MAX_SOLVE_RETRIES
  else ⟨.valueError, 0, 0⟩

/-! ## Captcha popup delivery during login (src/auth.py, `login` lines
100-134)

After clicking the Verify button, `login` polls `page.frames` up to 10
rounds, one second apart, for a frame whose URL contains `CaptchaPublic`; if
none appears it raises.  The page environment also carries the inline script
content of the page, which this part of the source never reads: no captcha
URL is ever pattern-matched out of script text. -/

structure LoginPageEnv where
  framesByRound : Nat → List String
  scriptContent : String

/-- The inner frame scan of one poll round. -/
def findCaptchaFrame (urls : List String) : Option String :=
  urls.find? (fun u => strContains u "CaptchaPublic")

/-- The 10-round poll loop (src/auth.py lines 106-114), with `n` rounds left
and `i` the current round index. -/
def pollCaptchaFrame (rounds : Nat → List String) : Nat → Nat → Option String
  | 0, _ => none
  | n + 1, i =>
    match findCaptchaFrame (rounds i) with
    | some u => some u
    | none => pollCaptchaFrame rounds n (i + 1)

inductive CaptchaPopupResult where
  | solvedInFrame (url : String)
  | raisedNoPopup
deriving DecidableEq

/-- The captcha-popup stage of `login` (src/auth.py lines 105-134): proceed
with the found in-page frame, or raise `Captcha popup did not appear`. -/
def loginCaptchaPopupStage (p : LoginPageEnv) : CaptchaPopupResult :=
  match pollCaptchaFrame p.framesByRound 10 0 with
  | some u => .solvedInFrame u
  | none => .raisedNoPopup

/-! ## Honeypot-aware credential entry (src/auth.py lines 77-84, human.py
`type_like_human`)

The selectors `input[name^="UserId"]:visible` and
`input[name^="Password"]:visible` match the inputs whose name starts with the
prefix and which are visible; `.first` picks the first match in DOM order,
and typing replaces that input's value with the typed text. -/

structure FormInput where
  name : String
  visible : Bool
  value : String
deriving DecidableEq

/-- Playwright selector `input[name^=pre]:visible` applied to one input. -/
def selMatches (pre : String) (inp : FormInput) : Bool :=
  pre.data.isPrefixOf inp.name.data && inp.visible

/-- `HumanBehavior.type_like_human` on `page.locator(sel).first`: replace the
value of the first matching input; with no match the locator operation times
out and raises (`none`). -/
def typeFirstMatch (pre text : String) : List FormInput → Option (List FormInput)
  | [] => none
  | inp :: rest =>
    if selMatches pre inp then some ({ inp with value := text } :: rest)
    else (typeFirstMatch pre text rest).map (inp :: ·)

/-- The credential-entry step of `login` (src/auth.py lines 77-84): email
into the first visible `UserId`-prefixed input, then the password into the
first visible `Password`-prefixed input. -/
def enterCredentials (inputs : List FormInput) (email pwd : String) :
    Option (List FormInput) :=
  (typeFirstMatch "UserId" email inputs).bind (typeFirstMatch "Password" pwd)

/-! ## Monitor loop error counter (src/main.py, `Monitor.run` lines 110-149) -/

structure MonState where
  consecutiveErrors : Nat
  totalChecks : Nat
deriving DecidableEq

/-- Observable per-cycle events: the consecutive-error value logged by the
failure handler (0 on success), whether the operator alert was sent, and the
cool-down sleep in seconds. -/
structure CycleEvents where
  errorsLogged : Nat
  alertSent : Bool
  cooldownSeconds : Nat
deriving DecidableEq

inductive CycleOutcome where
  | success (available : Bool)
  | failure
deriving DecidableEq

/-- One iteration of the `while` body of `Monitor.run` restricted to the
counter bookkeeping: a successful `check_once` bumps `total_checks` and
resets the counter; an exception increments the counter, and when it reaches
`max_retries` the operator alert is sent, a 300-second cool-down is slept,
and the counter is reset. -/
def runCycle (maxRetries : Nat) (st : MonState) :
    CycleOutcome → MonState × CycleEvents
  | .success _ => (⟨0, st.totalChecks + 1⟩, ⟨0, false, 0⟩)
  | .failure =>
    let e := st.consecutiveErrors + 1
    if maxRetries ≤ e then (⟨0, st.totalChecks⟩, ⟨e, true, 300⟩)
    else (⟨e, st.totalChecks⟩, ⟨e, false, 0⟩)

/-- The monitor state after a sequence of cycle outcomes. -/
def runCycles (maxRetries : Nat) (st : MonState) (l : List CycleOutcome) :
    MonState :=
  l.foldl (fun s oc => (runCycle maxRetries s oc).1) st

/-! ## Evidence screenshot rotation (src/slot_checker.py,
`_rotate_screenshots` lines 69-79) -/

def MAX_SCREENSHOTS : Nat := 50

structure EvFile where
  path : String
  mtime : Nat
deriving DecidableEq

/-- Comparison used by `sorted(files, key=os.path.getmtime)`. -/
def mtimeLE (a b : EvFile) : Prop := a.mtime ≤ b.mtime

instance : DecidableRel mtimeLE := fun a b => Nat.decLe a.mtime b.mtime

instance : IsTotal EvFile mtimeLE := ⟨fun a b => Nat.le_total a.mtime b.mtime⟩

instance : IsTrans EvFile mtimeLE := ⟨fun _ _ _ => Nat.le_trans⟩

/-- `SlotChecker._rotate_screenshots`: sort the matching files by
modification time and remove all but the newest `MAX_SCREENSHOTS`.  Returns
(removed, retained).  Sorting is modelled by insertion sort; the source's
sort is stable, but no property below depends on the order among equal
modification times. -/
def rotateScreenshots (files : List EvFile) : List EvFile × List EvFile :=
  let sortedFiles := List.insertionSort mtimeLE files
  if MAX_SCREENSHOTS < files.length then
    (sortedFiles.take (files.length - MAX_SCREENSHOTS),
     sortedFiles.drop (files.length - MAX_SCREENSHOTS))
  else ([], sortedFiles)

/-! ## 2captcha balance check (src/captcha.py `check_balance` lines 42-49,
src/main.py `_check_captcha_balance` lines 86-95)

The remote balance query is an oracle: `some b` is a successful query
returning balance `b` (in USD, modelled as a rational), `none` is any raised
exception (all caught by the source's bare `except Exception`). -/

def LOW_BALANCE_THRESHOLD : ℚ := mkRat 1 2

/-- `CaptchaSolver.check_balance`: the queried balance, or the sentinel
`-1.0` when the query raises. -/
def checkBalance (svc : Option ℚ) : ℚ :=
  match svc with
  | some b => b
  | none => -1

/-- Observable events of `Monitor._check_captcha_balance`: whether the
low-balance alert was sent and whether the balance was logged. -/
structure BalanceCheckEvents where
  lowAlert : Bool
  reported : Bool
deriving DecidableEq

/-- `Monitor._check_captcha_balance` (src/main.py lines 86-95): skip when the
solver is not constructed yet; treat a negative return as a failed check and
report nothing; otherwise log the balance and alert iff it is below the
threshold. -/
def checkCaptchaBalance (captchaReady : Bool) (svc : Option ℚ) :
    BalanceCheckEvents :=
  if captchaReady then
    let b := checkBalance svc
    if b < 0 then ⟨false, false⟩
    else ⟨decide (b < LOW_BALANCE_THRESHOLD), true⟩
  else ⟨false, false⟩

/-! ## Concrete instances used by witnesses and counterexamples -/

/-- A login form with five `UserId`-prefixed inputs of which exactly one is
visible, and two `Password`-prefixed inputs of which exactly one is visible
(the spec's honeypot scenario). -/
def honeypotInputs : List FormInput :=
  [⟨"UserId0", false, ""⟩, ⟨"UserId1", false, ""⟩, ⟨"UserId2", true, ""⟩,
   ⟨"UserId3", false, ""⟩, ⟨"UserId4", false, ""⟩,
   ⟨"Password0", false, ""⟩, ⟨"Password1", true, ""⟩]

/-- The same form after the credentials were typed: only the two visible
inputs changed. -/
def honeypotInputsAfter : List FormInput :=
  [⟨"UserId0", false, ""⟩, ⟨"UserId1", false, ""⟩, ⟨"UserId2", true, "a@b.c"⟩,
   ⟨"UserId3", false, ""⟩, ⟨"UserId4", false, ""⟩,
   ⟨"Password0", false, ""⟩, ⟨"Password1", true, "pw12"⟩]

/-- A grid-captcha page holding a single instruction label that is hidden
(display none) yet carries the target text. -/
def hiddenOnlyLabels : List GridLabel :=
  [⟨"none", "visible", false, "Please select all boxes with number 42"⟩]

/-- Grid-captcha labels with one visible instruction label carrying the
target text and one hidden honeypot label with a different number. -/
def gridLabelsW : List GridLabel :=
  [⟨"none", "visible", false, "Please select all boxes with number 99"⟩,
   ⟨"block", "visible", false, "Please select all boxes with number 42"⟩]

/-- Grid-captcha cells: one visible matching cell, one hidden honeypot cell
and one visible non-matching cell. -/
def gridImgsW : List GridImg :=
  [⟨40, 40, "block", "visible", some "cell-a", "data:image/png;base64,QUFB"⟩,
   ⟨0, 0, "none", "hidden", some "cell-b", "data:image/png;base64,QUFB"⟩,
   ⟨40, 40, "block", "visible", some "cell-c", "data:image/png;base64,QkJC"⟩]

/-- Recognition oracle for the witness cells: payload QUFB reads as the
number 42, payload QkJC as 17. -/
def gridRecogW : String → Option String :=
  fun b64 => if b64 == "QUFB" then some "42"
    else if b64 == "QkJC" then some "17" else none

/-- An hCaptcha widget element with a sitekey. -/
def hcapElemW : DomElement :=
  ⟨"h-captcha", some "00000000-aaaa-bbbb-cccc-111111111111"⟩

/-- A page whose main document carries an hCaptcha widget marker. -/
def pageW : PageModel :=
  ⟨[hcapElemW], [], "<html></html>"⟩

/-- A login-page environment where the captcha is delivered through a
separate navigable surface: no frame ever carries a `CaptchaPublic` URL, and
the captcha URL sits only in inline script content. -/
def scriptDeliveredPage : LoginPageEnv :=
  ⟨fun _ => [],
   "var u = \"https://example.com/CaptchaPublic?id=7\"; window.open(u);"⟩

/-- A login-page environment where the captcha popup appears as an in-page
frame on the third poll round. -/
def frameDeliveredPage : LoginPageEnv :=
  ⟨fun i => if i == 2 then ["https://example.com/CaptchaPublic?id=7"] else [],
   ""⟩

/-! ## Theorems -/

/-- C7: for every result-page text, the classification checks the
negative-signal phrase set first and returns `false` when any negative phrase
is present; with no negative phrase and some positive phrase it returns
`true`; with neither it also returns `true` (ambiguous treated as available).
Moreover `false` is returned exactly when a negative phrase is present. -/
theorem check_availability_classification (body : String) :
    ((∃ sg ∈ noSlotSignals, strContains (strLower body) sg = true) →
      checkAvailability body = false)
  ∧ ((∀ sg ∈ noSlotSignals, strContains (strLower body) sg = false) →
      (∃ sg ∈ slotSignals, strContains (strLower body) sg = true) →
      checkAvailability body = true)
  ∧ ((∀ sg ∈ noSlotSignals, strContains (strLower body) sg = false) →
      (∀ sg ∈ slotSignals, strContains (strLower body) sg = false) →
      checkAvailability body = true)
  ∧ (checkAvailability body = false ↔
      ∃ sg ∈ noSlotSignals, strContains (strLower body) sg = true) := by
  refine ⟨?_, ?_, ?_, ?_, ?_⟩
  · intro h
    have h1 : (noSlotSignals.any fun sg => strContains (strLower body) sg) = true :=
      List.any_eq_true.mpr h
    simp [checkAvailability, h1]
  · intro hneg hpos
    have h1 : (noSlotSignals.any fun sg => strContains (strLower body) sg) = false :=
      List.any_eq_false.mpr (fun x hx => by simp [hneg x hx])
    have h2 : (slotSignals.any fun sg => strContains (strLower body) sg) = true :=
      List.any_eq_true.mpr hpos
    simp [checkAvailability, h1, h2]
  · intro hneg hpos
    have h1 : (noSlotSignals.any fun sg => strContains (strLower body) sg) = false :=
      List.any_eq_false.mpr (fun x hx => by simp [hneg x hx])
    have h2 : (slotSignals.any fun sg => strContains (strLower body) sg) = false :=
      List.any_eq_false.mpr (fun x hx => by simp [hpos x hx])
    simp [checkAvailability, h1, h2]
  · intro hres
    by_contra hne
    have h1 : (noSlotSignals.any fun sg => strContains (strLower body) sg) = false :=
      List.any_eq_false.mpr (fun x hx hc => hne ⟨x, hx, hc⟩)
    have : checkAvailability body = true := by
      simp [checkAvailability, h1]
    simp [this] at hres
  · intro h
    have h1 : (noSlotSignals.any fun sg => strContains (strLower body) sg) = true :=
      List.any_eq_true.mpr h
    simp [checkAvailability, h1]

/-- Witness for C7 at the spec's scenario text containing the negative phrase
`no appointments available`. -/
theorem check_availability_witness :
    checkAvailability "We are sorry. No appointments available for the selected service." = false :=
  (check_availability_classification
    "We are sorry. No appointments available for the selected service.").1 (by decide)

/-- C4: for a known widget family the remote solve makes at most 3 attempts
with one fixed `SOLVE_RETRY_DELAY`-second sleep between consecutive attempts
(`sleeps` counts them), returns the token of the first successful attempt,
and fails after the third consecutive failure; an unknown kind raises
immediately with no service call and no sleep. -/
theorem solve_remote_retry_policy (ctype : String) (svc : Nat → Option String) :
    (knownCaptchaType ctype = false →
      solveRemote ctype svc = ⟨.valueError, 0, 0⟩)
  ∧ (knownCaptchaType ctype = true →
      ((solveRemote ctype svc).calls ≤ MAX_SOLVE_RETRIES
      ∧ (svc 1 = none → svc 2 = none → svc 3 = none →
          solveRemote ctype svc = ⟨.solveFailed, 3, 2⟩)
      ∧ (∀ tok, svc 1 = some tok →
          solveRemote ctype svc = ⟨.token tok, 1, 0⟩)
      ∧ (∀ tok, svc 1 = none → svc 2 = some tok →
          solveRemote ctype svc = ⟨.token tok, 2, 1⟩)
      ∧ (∀ tok, svc 1 = none → svc 2 = none → svc 3 = some tok →
          solveRemote ctype svc = ⟨.token tok, 3, 2⟩))) := by
  constructor
  · intro h; simp [solveRemote, h]
  · intro h
    have hs : solveRemote ctype svc = solveLoop svc 1 3 := by
      simp [solveRemote, h, MAX_SOLVE_RETRIES]
    rw [MAX_SOLVE_RETRIES, hs]
    refine ⟨?_, ?_, ?_, ?_, ?_⟩
    · rcases h1 : svc 1 with _ | t1 <;> rcases h2 : svc 2 with _ | t2 <;>
        rcases h3 : svc 3 with _ | t3 <;> simp [solveLoop, h1, h2, h3]
    · intro h1 h2 h3; simp [solveLoop, h1, h2, h3]
    · intro tok h1; simp [solveLoop, h1]
    · intro tok h1 h2; simp [solveLoop, h1, h2]
    · intro tok h1 h2 h3; simp [solveLoop, h1, h2, h3]

/-- Witness for C4: a service failing once and succeeding on the second
attempt yields the second attempt's token after one inter-attempt sleep. -/
theorem solve_remote_retry_witness :
    solveRemote "turnstile"
      (fun i => if i == 2 then some "tok-2" else none) = ⟨.token "tok-2", 2, 1⟩ :=
  ((solve_remote_retry_policy "turnstile"
      (fun i => if i == 2 then some "tok-2" else none)).2 rfl).2.2.2.1
    "tok-2" rfl rfl

/-- C10: `check_balance` is total, returning the queried balance and the
sentinel -1 whenever the query fails; the periodic balance check treats any
negative return as a failed check and only alerts on a successfully queried
balance below the threshold. -/
theorem check_balance_total_and_guarded (svc : Option ℚ) (r : Bool) :
    (svc = none → checkBalance svc = -1)
  ∧ (∀ b, svc = some b → checkBalance svc = b)
  ∧ (checkBalance svc < 0 → (checkCaptchaBalance r svc).lowAlert = false)
  ∧ ((checkCaptchaBalance r svc).lowAlert = true →
      ∃ b, svc = some b ∧ 0 ≤ b ∧ b < LOW_BALANCE_THRESHOLD)
  ∧ (svc = none → checkCaptchaBalance r svc = ⟨false, false⟩) := by
  refine ⟨fun h => by simp [checkBalance, h],
    fun b hb => by simp [checkBalance, hb], ?_, ?_, ?_⟩
  · intro hneg
    cases r with
    | false => simp [checkCaptchaBalance]
    | true => simp [checkCaptchaBalance, hneg]
  · intro hA
    cases r with
    | false => simp [checkCaptchaBalance] at hA
    | true =>
      by_cases hb : checkBalance svc < 0
      · simp [checkCaptchaBalance, hb] at hA
      · cases hsvc : svc with
        | none =>
          rw [hsvc] at hb
          exact absurd (by norm_num [checkBalance]) hb
        | some b =>
          rw [hsvc] at hb hA
          have hb' : ¬ b < 0 := by simpa [checkBalance] using hb
          refine ⟨b, rfl, le_of_not_lt hb', ?_⟩
          simp [checkCaptchaBalance, checkBalance, hb'] at hA
          exact hA
  · intro h
    subst h
    have hneg : checkBalance none < (0 : ℚ) := by norm_num [checkBalance]
    cases r with
    | false => simp [checkCaptchaBalance]
    | true => simp [checkCaptchaBalance, hneg]

/-- Witness for C10: a successfully queried balance of a quarter dollar is
below the half-dollar threshold and triggers the low-balance alert path. -/
theorem check_balance_witness :
    ∃ b, (some (mkRat 1 4) : Option ℚ) = some b ∧ 0 ≤ b ∧ b < LOW_BALANCE_THRESHOLD :=
  (check_balance_total_and_guarded (some (mkRat 1 4)) true).2.2.2.1 (by decide)

/-- Helper for C8: the consecutive-error counter stays strictly below the
threshold across any run of cycles, for a positive threshold. -/
theorem runCycles_errors_lt (m : Nat) (hm : 1 ≤ m) :
    ∀ (l : List CycleOutcome) (st : MonState), st.consecutiveErrors < m →
      (runCycles m st l).consecutiveErrors < m := by
  intro l
  induction l with
  | nil => intro st h; exact h
  | cons oc rest ih =>
    intro st h
    have hstep : (runCycle m st oc).1.consecutiveErrors < m := by
      cases oc with
      | success b => simpa [runCycle] using hm
      | failure =>
        by_cases hc : m ≤ st.consecutiveErrors + 1
        · simp only [runCycle]
          rw [if_pos hc]
          simpa using hm
        · simp only [runCycle]
          rw [if_neg hc]
          show st.consecutiveErrors + 1 < m
          omega
    have : runCycles m st (oc :: rest) = runCycles m (runCycle m st oc).1 rest := by
      simp [runCycles]
    rw [this]
    exact ih _ hstep

/-- C8: the consecutive-error counter resets to zero on any successful
cycle, a failed cycle increments it by exactly one (the incremented value is
the one logged), reaching the configured threshold sends the operator alert,
sleeps the 300-second cool-down and resets the counter, and starting from
zero the counter never exceeds the threshold (the post-cycle value stays
strictly below it, and even the transient logged value stays at most the
threshold). -/
theorem monitor_error_counter_policy (m : Nat) (st : MonState) :
    (∀ b, (runCycle m st (.success b)).1.consecutiveErrors = 0)
  ∧ ((runCycle m st .failure).2.errorsLogged = st.consecutiveErrors + 1)
  ∧ (st.consecutiveErrors + 1 < m →
      runCycle m st .failure =
        (⟨st.consecutiveErrors + 1, st.totalChecks⟩,
         ⟨st.consecutiveErrors + 1, false, 0⟩))
  ∧ (m ≤ st.consecutiveErrors + 1 →
      runCycle m st .failure =
        (⟨0, st.totalChecks⟩, ⟨st.consecutiveErrors + 1, true, 300⟩))
  ∧ (∀ l, 1 ≤ m → (runCycles m ⟨0, 0⟩ l).consecutiveErrors < m)
  ∧ (∀ l oc, 1 ≤ m →
      (runCycle m (runCycles m ⟨0, 0⟩ l) oc).2.errorsLogged ≤ m) := by
  refine ⟨fun b => rfl, ?_, ?_, ?_, ?_, ?_⟩
  · simp only [runCycle]
    split <;> rfl
  · intro h
    have : ¬ m ≤ st.consecutiveErrors + 1 := by omega
    simp only [runCycle]
    rw [if_neg this]
  · intro h
    simp only [runCycle]
    rw [if_pos h]
  · intro l hm
    exact runCycles_errors_lt m hm l ⟨0, 0⟩ (by simpa using hm)
  · intro l oc hm
    have hlt := runCycles_errors_lt m hm l ⟨0, 0⟩ (by simpa using hm)
    cases oc with
    | success b => simp [runCycle]
    | failure =>
      have herr : (runCycle m (runCycles m ⟨0, 0⟩ l) .failure).2.errorsLogged =
          (runCycles m ⟨0, 0⟩ l).consecutiveErrors + 1 := by
        simp only [runCycle]
        split <;> rfl
      rw [herr]
      omega

/-- Witness for C8: four consecutive failures with threshold 3 leave the
counter strictly below the threshold (the escalation resets it). -/
theorem monitor_error_counter_witness :
    (runCycles 3 ⟨0, 0⟩ [.failure, .failure, .failure, .failure]).consecutiveErrors < 3 :=
  (monitor_error_counter_policy 3 ⟨0, 0⟩).2.2.2.2.1
    [.failure, .failure, .failure, .failure] (by decide)

/-- C9: after rotation the evidence store retains at most `MAX_SCREENSHOTS`
files, every removed file is at least as old (by modification time) as every
retained file, nothing is lost or duplicated besides the removals, and no
file is removed while the store is within the cap. -/
theorem rotate_screenshots_cap_and_oldest (files : List EvFile) :
    (rotateScreenshots files).2.length ≤ MAX_SCREENSHOTS
  ∧ (∀ r ∈ (rotateScreenshots files).1, ∀ k ∈ (rotateScreenshots files).2,
      r.mtime ≤ k.mtime)
  ∧ List.Perm ((rotateScreenshots files).1 ++ (rotateScreenshots files).2) files
  ∧ (files.length ≤ MAX_SCREENSHOTS → (rotateScreenshots files).1 = []) := by
  have hperm : List.Perm (List.insertionSort mtimeLE files) files :=
    List.perm_insertionSort mtimeLE files
  have hlen : (List.insertionSort mtimeLE files).length = files.length :=
    List.length_insertionSort mtimeLE files
  have hsorted : List.Sorted mtimeLE (List.insertionSort mtimeLE files) :=
    List.sorted_insertionSort mtimeLE files
  by_cases hc : MAX_SCREENSHOTS < files.length
  · have hrw : rotateScreenshots files =
        ((List.insertionSort mtimeLE files).take (files.length - MAX_SCREENSHOTS),
         (List.insertionSort mtimeLE files).drop (files.length - MAX_SCREENSHOTS)) := by
      simp [rotateScreenshots, hc]
    rw [hrw]
    refine ⟨?_, ?_, ?_, ?_⟩
    · simp only [List.length_drop, hlen]
      omega
    · intro r hr k hk
      have hpw : List.Pairwise mtimeLE
          ((List.insertionSort mtimeLE files).take (files.length - MAX_SCREENSHOTS) ++
           (List.insertionSort mtimeLE files).drop (files.length - MAX_SCREENSHOTS)) := by
        rw [List.take_append_drop]
        exact hsorted
      exact (List.pairwise_append.mp hpw).2.2 r hr k hk
    · rw [List.take_append_drop]
      exact hperm
    · intro h
      omega
  · have hrw : rotateScreenshots files = ([], List.insertionSort mtimeLE files) := by
      simp [rotateScreenshots, hc]
    rw [hrw]
    refine ⟨?_, ?_, ?_, fun _ => rfl⟩
    · rw [hlen]
      omega
    · intro r hr
      simp at hr
    · simpa using hperm

/-- Witness for C9: a two-file store is within the cap, so rotation removes
nothing. -/
theorem rotate_screenshots_witness :
    (rotateScreenshots [⟨"check_100.png", 100⟩, ⟨"check_50.png", 50⟩]).1 = [] :=
  (rotate_screenshots_cap_and_oldest
    [⟨"check_100.png", 100⟩, ⟨"check_50.png", 50⟩]).2.2.2 (by decide)

/-- Helper for C5: the poll loop finds nothing exactly when no polled round
shows a frame URL containing the marker. -/
theorem pollCaptchaFrame_none_iff (r : Nat → List String) :
    ∀ n i, pollCaptchaFrame r n i = none ↔
      ∀ j, i ≤ j → j < i + n → findCaptchaFrame (r j) = none := by
  intro n
  induction n with
  | zero =>
    intro i
    constructor
    · intro _ j h1 h2
      exact absurd h2 (by omega)
    · intro _
      rfl
  | succ n ih =>
    intro i
    cases hf : findCaptchaFrame (r i) with
    | some u =>
      constructor
      · intro h
        simp [pollCaptchaFrame, hf] at h
      · intro h
        exact absurd (h i le_rfl (by omega)) (by simp [hf])
    | none =>
      have hstep : pollCaptchaFrame r (n + 1) i = pollCaptchaFrame r n (i + 1) := by
        simp [pollCaptchaFrame, hf]
      rw [hstep, ih (i + 1)]
      constructor
      · intro h j h1 h2
        rcases eq_or_lt_of_le h1 with rfl | hlt
        · exact hf
        · exact h j hlt (by omega)
      · intro h j h1 h2
        exact h j (by omega) (by omega)

/-- Helper for C5: a URL returned by the poll loop does contain the
`CaptchaPublic` marker. -/
theorem pollCaptchaFrame_some_contains (r : Nat → List String) :
    ∀ n i u, pollCaptchaFrame r n i = some u →
      strContains u "CaptchaPublic" = true := by
  intro n
  induction n with
  | zero =>
    intro i u h
    simp [pollCaptchaFrame] at h
  | succ n ih =>
    intro i u h
    cases hf : findCaptchaFrame (r i) with
    | some v =>
      have hv : v = u := by
        simp [pollCaptchaFrame, hf] at h
        exact h
      have hf' : List.find? (fun x => strContains x "CaptchaPublic") (r i) = some v := hf
      have hcv := List.find?_some hf'
      rw [hv] at hcv
      exact hcv
    | none =>
      have hstep : pollCaptchaFrame r (n + 1) i = pollCaptchaFrame r n (i + 1) := by
        simp [pollCaptchaFrame, hf]
      rw [hstep] at h
      exact ih (i + 1) u h

/-- C5 (amended): after the verify action, login handles exactly one captcha
delivery mechanism — an in-page frame whose URL contains `CaptchaPublic`,
polled for up to 10 rounds.  It raises (does not proceed) precisely when no
polled round shows such a frame, regardless of the page's inline script
content; when such a frame appears, login proceeds with it. -/
theorem login_popup_frame_only (p : LoginPageEnv) :
    (loginCaptchaPopupStage p = .raisedNoPopup ↔
      ∀ i, i < 10 → ∀ u ∈ p.framesByRound i, strContains u "CaptchaPublic" = false)
  ∧ (∀ u, pollCaptchaFrame p.framesByRound 10 0 = some u →
      loginCaptchaPopupStage p = .solvedInFrame u ∧
      strContains u "CaptchaPublic" = true) := by
  constructor
  · constructor
    · intro h i hi u hu
      have hp : pollCaptchaFrame p.framesByRound 10 0 = none := by
        cases hq : pollCaptchaFrame p.framesByRound 10 0 with
        | none => rfl
        | some v => simp [loginCaptchaPopupStage, hq] at h
      have hfi := (pollCaptchaFrame_none_iff p.framesByRound 10 0).mp hp i
        (by omega) (by omega)
      have := List.find?_eq_none.mp hfi u hu
      simpa using this
    · intro h
      have hp : pollCaptchaFrame p.framesByRound 10 0 = none := by
        rw [pollCaptchaFrame_none_iff]
        intro j h1 h2
        exact List.find?_eq_none.mpr (fun u hu => by simp [h j (by omega) u hu])
      simp [loginCaptchaPopupStage, hp]
  · intro u hu
    exact ⟨by simp [loginCaptchaPopupStage, hu],
      pollCaptchaFrame_some_contains p.framesByRound 10 0 u hu⟩

/-- Counterexample for C5: a page delivering the captcha only through a URL
in inline script content (no `CaptchaPublic` frame ever appears) makes login
raise instead of proceeding — the script-extracted-URL mechanism claimed by
the spec is not handled by the code. -/
theorem login_popup_script_mechanism_counterexample :
    loginCaptchaPopupStage scriptDeliveredPage = .raisedNoPopup
  ∧ strContains scriptDeliveredPage.scriptContent "CaptchaPublic" = true :=
  ⟨rfl, by decide⟩

/-- Witness for C5 (amended): a frame with a `CaptchaPublic` URL appearing on
the third poll round is found and login proceeds with it. -/
theorem login_popup_frame_witness :
    loginCaptchaPopupStage frameDeliveredPage =
      .solvedInFrame "https://example.com/CaptchaPublic?id=7"
  ∧ strContains "https://example.com/CaptchaPublic?id=7" "CaptchaPublic" = true :=
  (login_popup_frame_only frameDeliveredPage).2
    "https://example.com/CaptchaPublic?id=7" (by decide)

/-- Helper for C6: typing into the first matching input of a selector leaves
every input either untouched, or — only if it matched the selector — with
its value replaced and everything else intact. -/
theorem typeFirstMatch_pointwise (pre text : String) :
    ∀ (inputs out : List FormInput), typeFirstMatch pre text inputs = some out →
      out.length = inputs.length ∧
      ∀ i (hi : i < inputs.length) (ho : i < out.length),
        out.get ⟨i, ho⟩ = inputs.get ⟨i, hi⟩ ∨
        (selMatches pre (inputs.get ⟨i, hi⟩) = true ∧
         out.get ⟨i, ho⟩ = { inputs.get ⟨i, hi⟩ with value := text }) := by
  intro inputs
  induction inputs with
  | nil =>
    intro out h
    simp [typeFirstMatch] at h
  | cons inp rest ih =>
    intro out h
    by_cases hm : selMatches pre inp
    · rw [typeFirstMatch, if_pos hm] at h
      cases h
      refine ⟨by simp, ?_⟩
      intro i hi ho
      cases i with
      | zero => exact Or.inr ⟨hm, rfl⟩
      | succ n => exact Or.inl rfl
    · rw [typeFirstMatch, if_neg hm] at h
      rcases hrec : typeFirstMatch pre text rest with _ | l
      · rw [hrec] at h
        cases h
      · rw [hrec] at h
        cases h
        obtain ⟨hlen, hpt⟩ := ih l hrec
        refine ⟨by simp [hlen], ?_⟩
        intro i hi ho
        cases i with
        | zero => exact Or.inl rfl
        | succ n =>
          exact hpt n (Nat.lt_of_succ_lt_succ hi) (Nat.lt_of_succ_lt_succ ho)

/-- C6: whenever credential entry succeeds, an input whose value changed must
have been visible and `UserId`- or `Password`-prefixed: hidden decoy inputs
never receive any typed text, and no input's name or visibility changes. -/
theorem credentials_target_only_visible (inputs : List FormInput)
    (email pwd : String) (out : List FormInput)
    (h : enterCredentials inputs email pwd = some out) :
    out.length = inputs.length
  ∧ ∀ i (hi : i < inputs.length) (ho : i < out.length),
      (out.get ⟨i, ho⟩).value ≠ (inputs.get ⟨i, hi⟩).value →
      (inputs.get ⟨i, hi⟩).visible = true
      ∧ ("UserId".data.isPrefixOf (inputs.get ⟨i, hi⟩).name.data = true
         ∨ "Password".data.isPrefixOf (inputs.get ⟨i, hi⟩).name.data = true)
      ∧ (out.get ⟨i, ho⟩).visible = (inputs.get ⟨i, hi⟩).visible
      ∧ (out.get ⟨i, ho⟩).name = (inputs.get ⟨i, hi⟩).name := by
  rcases hmid : typeFirstMatch "UserId" email inputs with _ | mid
  · rw [enterCredentials, hmid] at h
    cases h
  · rw [enterCredentials, hmid] at h
    rw [Option.some_bind] at h
    obtain ⟨hlen1, hpt1⟩ := typeFirstMatch_pointwise "UserId" email inputs mid hmid
    obtain ⟨hlen2, hpt2⟩ := typeFirstMatch_pointwise "Password" pwd mid out h
    refine ⟨by omega, ?_⟩
    intro i hi ho hval
    have hiM : i < mid.length := by omega
    rcases hpt1 i hi hiM with h1 | ⟨hm1, h1⟩ <;>
      rcases hpt2 i hiM ho with h2 | ⟨hm2, h2⟩
    · rw [h2, h1] at hval
      exact absurd rfl hval
    · rw [h1] at hm2 h2
      simp only [selMatches, Bool.and_eq_true] at hm2
      obtain ⟨hpre, hvis⟩ := hm2
      exact ⟨hvis, Or.inr hpre, by rw [h2], by rw [h2]⟩
    · simp only [selMatches, Bool.and_eq_true] at hm1
      obtain ⟨hpre, hvis⟩ := hm1
      exact ⟨hvis, Or.inl hpre, by rw [h2, h1], by rw [h2, h1]⟩
    · rw [h1] at hm2 h2
      simp only [selMatches, Bool.and_eq_true] at hm1
      obtain ⟨hpre, hvis⟩ := hm1
      exact ⟨hvis, Or.inl hpre, by rw [h2], by rw [h2]⟩

/-- Witness for C6 at the spec's honeypot scenario: the email lands in the
one visible of five `UserId`-prefixed inputs, which indeed is visible. -/
theorem credentials_visible_witness :
    (honeypotInputs.get ⟨2, by decide⟩).visible = true :=
  ((credentials_target_only_visible honeypotInputs "a@b.c" "pw12"
      honeypotInputsAfter (by decide)).2 2 (by decide) (by decide)
    (by decide)).1

/-- C3 (amended): whenever some visible instruction label carries a matching
`number NNN` text, the target is supplied by a visible label; only when no
visible label matches does the fallback of `solve_bls_grid` scan all labels,
hidden honeypots included. -/
theorem extract_target_visible_priority (labels : List GridLabel) :
    ((∃ l ∈ labels, labelVisible l = true ∧ (extractNumberFromText l.text).isSome) →
      ∃ l ∈ labels, labelVisible l = true ∧
        extractNumberFromText l.text = extractTarget labels ∧
        (extractTarget labels).isSome)
  ∧ ((∀ l ∈ labels, labelVisible l = true → extractNumberFromText l.text = none) →
      extractTarget labels =
        labels.findSome? (fun l => extractNumberFromText l.text)) := by
  constructor
  · rintro ⟨l, hl, hvis, hsome⟩
    rcases hres : labels.findSome?
        (fun l => if labelVisible l then extractNumberFromText l.text else none)
        with _ | n
    · exfalso
      have hnone := List.findSome?_eq_none_iff.mp hres l hl
      rw [if_pos hvis] at hnone
      rw [hnone] at hsome
      simp at hsome
    · obtain ⟨a, ha, hfa⟩ := List.exists_of_findSome?_eq_some hres
      by_cases hva : labelVisible a
      · rw [if_pos hva] at hfa
        have htgt : extractTarget labels = some n := by
          simp [extractTarget, hres]
        exact ⟨a, ha, hva, by rw [htgt, hfa], by rw [htgt]; rfl⟩
      · rw [if_neg hva] at hfa
        cases hfa
  · intro h
    have hnone : labels.findSome?
        (fun l => if labelVisible l then extractNumberFromText l.text else none) =
        none := by
      apply List.findSome?_eq_none_iff.mpr
      intro x hx
      by_cases hv : labelVisible x
      · rw [if_pos hv]
        exact h x hx hv
      · rw [if_neg hv]
    simp [extractTarget, hnone]

/-- Counterexample for C3: with a single hidden instruction label carrying
`number 42` and no visible label, the fallback of `solve_bls_grid` extracts
the target `42` from that hidden label — a hidden honeypot label does supply
the target value. -/
theorem extract_target_hidden_fallback :
    extractTarget hiddenOnlyLabels = some "42"
  ∧ (∀ l ∈ hiddenOnlyLabels, labelVisible l = false) := by
  constructor
  · decide
  · decide

/-- Witness for C3 (amended): with a visible label carrying `number 42` next
to a hidden honeypot label, the target is supplied by a visible label. -/
theorem extract_target_visible_witness :
    ∃ l ∈ gridLabelsW, labelVisible l = true ∧
      extractNumberFromText l.text = extractTarget gridLabelsW ∧
      (extractTarget gridLabelsW).isSome :=
  (extract_target_visible_priority gridLabelsW).1 (by decide)

/-- Helper for C2: membership in the matching-id list is exactly: some image
of the page is visible, carries that id, and its recognized value equals the
target. -/
theorem mem_matchingIds_iff (recog : String → Option String) (target : String)
    (imgs : List GridImg) (id : String) :
    id ∈ matchingIds recog target (visibleCells imgs) ↔
      ∃ g ∈ imgs, imgVisible g = true ∧ g.id = some id ∧
        recognizedOf recog (g.id, g.src) = some target := by
  rw [matchingIds, List.mem_filterMap]
  constructor
  · rintro ⟨c, hc, hcond⟩
    by_cases hr : (recognizedOf recog c == some target) = true
    · rw [if_pos hr] at hcond
      rw [visibleCells] at hc
      obtain ⟨g, hg, hgc⟩ := List.mem_map.mp hc
      obtain ⟨hgm, hgv⟩ := List.mem_filter.mp hg
      rw [beq_iff_eq] at hr
      rw [← hgc] at hcond hr
      exact ⟨g, hgm, hgv, hcond, hr⟩
    · rw [if_neg hr] at hcond
      cases hcond
  · rintro ⟨g, hg, hv, hid, hrec⟩
    refine ⟨(g.id, g.src), ?_, ?_⟩
    · rw [visibleCells]
      exact List.mem_map.mpr ⟨g, List.mem_filter.mpr ⟨hg, hv⟩, rfl⟩
    · have hbeq : (recognizedOf recog (g.id, g.src) == some target) = true := by
        rw [hrec]
        exact beq_self_eq_true (some target)
      rw [if_pos hbeq]
      exact hid

/-- Helper for C2: whatever the control path, the list of clicked cell ids of
`solve_bls_grid` equals the matching-id list (the failure paths click the
empty list, and on those paths the matching-id list is empty too). -/
theorem solveBlsGrid_clicked_eq (labels : List GridLabel) (imgs : List GridImg)
    (recog : String → Option String) (target : String)
    (h : extractTarget labels = some target) :
    (solveBlsGrid labels imgs recog).clicked =
      matchingIds recog target (visibleCells imgs) := by
  simp only [solveBlsGrid, h]
  split_ifs with h1 h2
  · have hcells : visibleCells imgs = [] := by
      simpa [List.isEmpty_iff] using h1
    simp [matchingIds, hcells]
  · have hids : matchingIds recog target (visibleCells imgs) = [] := by
      simpa [List.isEmpty_iff] using h2
    simp [hids]
  · rfl

/-- C2: given an extracted target, the set of cells clicked by
`solve_bls_grid` is exactly the set of visible candidate cells whose
recognized value equals the target (hidden or zero-size honeypot cells can
never be clicked); when no cell matches, the resolver reports failure with no
click and no submission, and more generally every failure path performs no
click and no submission. -/
theorem solve_grid_clicks_exactly_matching (labels : List GridLabel)
    (imgs : List GridImg) (recog : String → Option String) (target : String)
    (h : extractTarget labels = some target) :
    (∀ id, id ∈ (solveBlsGrid labels imgs recog).clicked ↔
      ∃ g ∈ imgs, imgVisible g = true ∧ g.id = some id ∧
        recognizedOf recog (g.id, g.src) = some target)
  ∧ (matchingIds recog target (visibleCells imgs) = [] →
      solveBlsGrid labels imgs recog = ⟨false, [], false⟩)
  ∧ ((solveBlsGrid labels imgs recog).success = false →
      (solveBlsGrid labels imgs recog).clicked = [] ∧
      (solveBlsGrid labels imgs recog).submitted = false) := by
  refine ⟨?_, ?_, ?_⟩
  · intro id
    rw [solveBlsGrid_clicked_eq labels imgs recog target h]
    exact mem_matchingIds_iff recog target imgs id
  · intro hm
    simp only [solveBlsGrid, h]
    split_ifs with h1 h2
    · rfl
    · rfl
    · exact absurd (by simp [hm]) h2
  · intro hs
    have hcase : solveBlsGrid labels imgs recog = ⟨false, [], false⟩ ∨
        (solveBlsGrid labels imgs recog).success = true := by
      simp only [solveBlsGrid, h]
      split_ifs with h1 h2
      · exact Or.inl rfl
      · exact Or.inl rfl
      · exact Or.inr rfl
    rcases hcase with heq | htrue
    · rw [heq]
      exact ⟨rfl, rfl⟩
    · rw [hs] at htrue
      exact Bool.noConfusion htrue

/-- Witness for C2: on a concrete grid with one visible matching cell, one
hidden honeypot cell and one visible non-matching cell, `cell-a` is clicked
exactly because a visible image with that id recognizes to the target. -/
theorem solve_grid_clicks_witness :
    "cell-a" ∈ (solveBlsGrid gridLabelsW gridImgsW gridRecogW).clicked ↔
      ∃ g ∈ gridImgsW, imgVisible g = true ∧ g.id = some "cell-a" ∧
        recognizedOf gridRecogW (g.id, g.src) = some "42" :=
  (solve_grid_clicks_exactly_matching gridLabelsW gridImgsW gridRecogW "42"
    (by decide)).1 "cell-a"

/-- Helper for C1: a frame's detection result has a truthy family exactly
when the frame holds some element with a `data-sitekey` attribute. -/
theorem detectInFrame_fst_isSome (els : List DomElement) :
    (detectInFrame els).1.isSome = frameHasMarker els := by
  rcases h1 : classQuery els "h-captcha" with _ | e1
  · rcases h2 : classQuery els "cf-turnstile" with _ | e2
    · rcases h3 : classQuery els "g-recaptcha" with _ | e3
      · rcases h4 : anySitekeyQuery els with _ | e4
        · have hfm : frameHasMarker els = false := by
            rw [frameHasMarker]
            exact List.any_eq_false.mpr (List.find?_eq_none.mp h4)
          rw [hfm]
          simp [detectInFrame, h1, h2, h3, h4]
        · have hks := List.find?_some h4
          have hfm : frameHasMarker els = true := by
            rw [frameHasMarker]
            exact List.any_eq_true.mpr ⟨e4, List.mem_of_find?_eq_some h4, hks⟩
          rw [hfm]
          simp only [detectInFrame, h1, h2, h3, h4]
          split_ifs <;> rfl
      · have hp := List.find?_some h3
        simp only [Bool.and_eq_true] at hp
        have hfm : frameHasMarker els = true := by
          rw [frameHasMarker]
          exact List.any_eq_true.mpr ⟨e3, List.mem_of_find?_eq_some h3, hp.2⟩
        rw [hfm]
        simp [detectInFrame, h1, h2, h3]
    · have hp := List.find?_some h2
      simp only [Bool.and_eq_true] at hp
      have hfm : frameHasMarker els = true := by
        rw [frameHasMarker]
        exact List.any_eq_true.mpr ⟨e2, List.mem_of_find?_eq_some h2, hp.2⟩
      rw [hfm]
      simp [detectInFrame, h1, h2]
  · have hp := List.find?_some h1
    simp only [Bool.and_eq_true] at hp
    have hfm : frameHasMarker els = true := by
      rw [frameHasMarker]
      exact List.any_eq_true.mpr ⟨e1, List.mem_of_find?_eq_some h1, hp.2⟩
    rw [hfm]
    simp [detectInFrame, h1]

/-- Helper for C1: a frame holding any `data-sitekey` element is classified
into one of the three families together with a present sitekey. -/
theorem detectInFrame_classified (els : List DomElement)
    (h : frameHasMarker els = true) :
    ∃ fam key, detectInFrame els = (some fam, some key) ∧
      (fam = "hcaptcha" ∨ fam = "turnstile" ∨ fam = "recaptcha") := by
  rcases h1 : classQuery els "h-captcha" with _ | e1
  · rcases h2 : classQuery els "cf-turnstile" with _ | e2
    · rcases h3 : classQuery els "g-recaptcha" with _ | e3
      · rcases h4 : anySitekeyQuery els with _ | e4
        · exfalso
          rw [frameHasMarker] at h
          obtain ⟨x, hx, hxs⟩ := List.any_eq_true.mp h
          exact List.find?_eq_none.mp h4 x hx hxs
        · have hks := List.find?_some h4
          obtain ⟨key, hkey⟩ := Option.isSome_iff_exists.mp hks
          simp only [detectInFrame, h1, h2, h3, h4]
          split_ifs
          · exact ⟨"hcaptcha", key, by rw [hkey], Or.inl rfl⟩
          · exact ⟨"turnstile", key, by rw [hkey], Or.inr (Or.inl rfl)⟩
          · exact ⟨"hcaptcha", key, by rw [hkey], Or.inl rfl⟩
      · have hp := List.find?_some h3
        simp only [Bool.and_eq_true] at hp
        obtain ⟨key, hkey⟩ := Option.isSome_iff_exists.mp hp.2
        refine ⟨"recaptcha", key, ?_, Or.inr (Or.inr rfl)⟩
        simp only [detectInFrame, h1, h2, h3]
        rw [hkey]
    · have hp := List.find?_some h2
      simp only [Bool.and_eq_true] at hp
      obtain ⟨key, hkey⟩ := Option.isSome_iff_exists.mp hp.2
      refine ⟨"turnstile", key, ?_, Or.inr (Or.inl rfl)⟩
      simp only [detectInFrame, h1, h2]
      rw [hkey]
  · have hp := List.find?_some h1
    simp only [Bool.and_eq_true] at hp
    obtain ⟨key, hkey⟩ := Option.isSome_iff_exists.mp hp.2
    refine ⟨"hcaptcha", key, ?_, Or.inl rfl⟩
    simp only [detectInFrame, h1]
    rw [hkey]

/-- C1: the detector scans the main document first, then the child frames,
then the raw-HTML regex; inside a frame the three family class signatures are
classified exactly (hCaptcha before Turnstile before reCAPTCHA) with the
matched element's sitekey; a marker in the main document or any frame makes
the detector return a family with a present sitekey; and with no
`data-sitekey` element in any frame and no regex match in the raw HTML it
returns `(none, none)`. -/
theorem detect_scan_order_and_families (p : PageModel) :
    (frameHasMarker p.mainFrame = true → detect p = detectInFrame p.mainFrame)
  ∧ (frameHasMarker p.mainFrame = false →
      detect p = (scanChildFrames p).getD (detectFromHtml p.html))
  ∧ (∀ els e, classQuery els "h-captcha" = some e →
      detectInFrame els = (some "hcaptcha", e.sitekey))
  ∧ (∀ els e, classQuery els "h-captcha" = none →
      classQuery els "cf-turnstile" = some e →
      detectInFrame els = (some "turnstile", e.sitekey))
  ∧ (∀ els e, classQuery els "h-captcha" = none →
      classQuery els "cf-turnstile" = none →
      classQuery els "g-recaptcha" = some e →
      detectInFrame els = (some "recaptcha", e.sitekey))
  ∧ ((frameHasMarker p.mainFrame = true ∨
      ∃ f ∈ p.childFrames, frameHasMarker f = true) →
      ∃ fam key, detect p = (some fam, some key) ∧
        (fam = "hcaptcha" ∨ fam = "turnstile" ∨ fam = "recaptcha"))
  ∧ (frameHasMarker p.mainFrame = false →
      (∀ f ∈ p.childFrames, frameHasMarker f = false) →
      searchSitekey p.html.data = none →
      detect p = (none, none)) := by
  refine ⟨?_, ?_, ?_, ?_, ?_, ?_, ?_⟩
  · intro h
    have hm : (detectInFrame p.mainFrame).1.isSome = true := by
      rw [detectInFrame_fst_isSome]
      exact h
    simp [detect, hm]
  · intro h
    have hm : (detectInFrame p.mainFrame).1.isSome = false := by
      rw [detectInFrame_fst_isSome]
      exact h
    rcases hs : scanChildFrames p with _ | r <;> simp [detect, hm, hs]
  · intro els e h1
    simp [detectInFrame, h1]
  · intro els e h1 h2
    simp [detectInFrame, h1, h2]
  · intro els e h1 h2 h3
    simp [detectInFrame, h1, h2, h3]
  · intro hcase
    by_cases hmain : frameHasMarker p.mainFrame = true
    · have hm : (detectInFrame p.mainFrame).1.isSome = true := by
        rw [detectInFrame_fst_isSome]
        exact hmain
      have hd : detect p = detectInFrame p.mainFrame := by
        simp [detect, hm]
      rw [hd]
      exact detectInFrame_classified p.mainFrame hmain
    · have hmainF : frameHasMarker p.mainFrame = false := by
        simpa using hmain
      rcases hcase with hmt | ⟨f, hf, hfm⟩
      · exact absurd hmt hmain
      · have hm : (detectInFrame p.mainFrame).1.isSome = false := by
          rw [detectInFrame_fst_isSome]
          exact hmainF
        have hsome : (scanChildFrames p).isSome = true := by
          rw [scanChildFrames]
          apply List.find?_isSome.mpr
          refine ⟨detectInFrame f, List.mem_map.mpr ⟨f, hf, rfl⟩, ?_⟩
          rw [detectInFrame_fst_isSome]
          exact hfm
        rcases hscan : scanChildFrames p with _ | r
        · rw [hscan] at hsome
          simp at hsome
        · have hscanQ : (p.childFrames.map detectInFrame).find?
              (fun x => x.1.isSome) = some r := hscan
          have hd : detect p = r := by
            simp [detect, hm, hscan]
          have hrmem := List.mem_of_find?_eq_some hscanQ
          have hrsome := List.find?_some hscanQ
          obtain ⟨f2, hf2, hf2eq⟩ := List.mem_map.mp hrmem
          have hfm2 : frameHasMarker f2 = true := by
            rw [← detectInFrame_fst_isSome, hf2eq]
            exact hrsome
          obtain ⟨fam, key, heq, hfam⟩ := detectInFrame_classified f2 hfm2
          exact ⟨fam, key, by rw [hd, ← hf2eq, heq], hfam⟩
  · intro hmainF hchild hre
    have hm : (detectInFrame p.mainFrame).1.isSome = false := by
      rw [detectInFrame_fst_isSome]
      exact hmainF
    have hscan : scanChildFrames p = none := by
      rw [scanChildFrames]
      apply List.find?_eq_none.mpr
      intro x hx
      obtain ⟨f, hf, rfl⟩ := List.mem_map.mp hx
      rw [detectInFrame_fst_isSome]
      simp [hchild f hf]
    simp [detect, hm, hscan, detectFromHtml, hre]

/-- Witness for C1: a main document holding an hCaptcha marker element is
classified as hCaptcha with that element's sitekey. -/
theorem detect_families_witness :
    detectInFrame pageW.mainFrame = (some "hcaptcha", hcapElemW.sitekey) :=
  (detect_scan_order_and_families pageW).2.2.1 pageW.mainFrame hcapElemW
    (by decide)

end BLS
